import Mathlib

/-!
Verification of the data-driven phase execution pipeline
(app/orchestrator_api/services): the multi-strategy LLM response parser,
the configuration loader, the usage recorder, the phase execution
orchestrator, and the data-driven transition commit of the pipeline service.

Python services are shallowly embedded as Lean functions.  Exceptions are
modelled with Except, Python None with Option, and Python dicts that the
code only reads or updates pointwise with association lists.  Collaborators
that live outside src (repositories, the prompt builder, the Anthropic
client) are parameters of the embedded functions; where a claim depends on
their behaviour the definition carries a doc comment starting
"Modelled from the spec:".
-/

section Definitions

/-- A Python value handed to LLMResponseParser.parse: either an actual
string or some non-string object (the isinstance check only distinguishes
these two cases). -/
inductive PyText where
  | ofString (s : String)
  | nonString
deriving DecidableEq

/-- Python str.strip() yields a falsy (empty) result exactly when every
character of the string is whitespace. -/
def pyBlank (s : String) : Bool :=
  s.toList.all Char.isWhitespace

/-- ParseResult from llm_response_parser.py: success flag, optional data,
optional winning strategy name, ordered diagnostic messages.
The artifact payload type is a parameter alpha (the source holds an opaque
JSON dict). -/
structure ParseResult (α : Type) where
  success : Bool
  data : Option α
  strategy_used : Option String
  error_messages : List String
deriving DecidableEq

/-- One parsing strategy: its class name and its parse method.  A Python
strategy call either returns an optional dict or raises; both outcomes are
captured in Except (error carries str(e)). -/
structure Strategy (α : Type) where
  name : String
  run : String → Except String (Option α)

/-- The strategy loop of LLMResponseParser.parse (source lines 164-192):
try each strategy in order; a non-null result returns success immediately
with empty error_messages; a null result moves on; a raised exception
appends "name: message" to the accumulated errors and moves on; exhaustion
returns failure with the accumulated errors, or the fallback message when
none accumulated. -/
def parseLoop {α : Type} : List (Strategy α) → String → List String → ParseResult α
  | [], _, errors =>
      { success := false, data := none, strategy_used := none,
        error_messages := if errors.isEmpty then ["All strategies failed"] else errors }
  | st :: rest, text, errors =>
      match st.run text with
      | .ok (some d) =>
          { success := true, data := some d, strategy_used := some st.name,
            error_messages := [] }
      | .ok none => parseLoop rest text errors
      | .error e => parseLoop rest text (errors ++ [st.name ++ ": " ++ e])

/-- LLMResponseParser.parse: reject non-string input, reject
empty/whitespace-only input, otherwise run the strategy loop with an empty
error accumulator. -/
def LLMResponseParser.parse {α : Type} (strategies : List (Strategy α)) :
    PyText → ParseResult α
  | .nonString =>
      { success := false, data := none, strategy_used := none,
        error_messages := ["Invalid input: expected string"] }
  | .ofString response_text =>
      if pyBlank response_text then
        { success := false, data := none, strategy_used := none,
          error_messages := ["Empty response text"] }
      else
        parseLoop strategies response_text []

/-- Names of the strategies whose parse method is actually invoked by the
loop on a given text: every strategy up to and including the first one that
returns a non-null result. -/
def loopAttempts {α : Type} : List (Strategy α) → String → List String
  | [], _ => []
  | st :: rest, text =>
      match st.run text with
      | .ok (some _) => [st.name]
      | .ok none => st.name :: loopAttempts rest text
      | .error _ => st.name :: loopAttempts rest text

/-- Strategies attempted by a full parse call: none when the input guards
reject the input, otherwise those attempted by the loop. -/
def parseAttempts {α : Type} (strategies : List (Strategy α)) : PyText → List String
  | .nonString => []
  | .ofString response_text =>
      if pyBlank response_text then [] else loopAttempts strategies response_text

/-- The "name: str(e)" messages produced by raising strategies along a run
of the loop in which no strategy returns a non-null result. -/
def loopRaisedMsgs {α : Type} : List (Strategy α) → String → List String
  | [], _ => []
  | st :: rest, text =>
      match st.run text with
      | .ok _ => loopRaisedMsgs rest text
      | .error e => (st.name ++ ": " ++ e) :: loopRaisedMsgs rest text

/-- A concrete always-raising strategy over Nat payloads, for evaluating
the parser on explicit inputs. -/
def stratThrow : Strategy Nat :=
  { name := "A", run := fun _ => .error "crash" }

/-- A concrete always-null strategy over Nat payloads. -/
def stratNull : Strategy Nat :=
  { name := "B", run := fun _ => .ok none }

/-- A concrete always-succeeding strategy over Nat payloads. -/
def stratWin : Strategy Nat :=
  { name := "W", run := fun _ => .ok (some 3) }

/-- True when the second string occurs as a contiguous substring of the
first (used to state facts about diagnostic messages). -/
def charsStartWith : List Char → List Char → Bool
  | _, [] => true
  | [], _ :: _ => false
  | c :: rest, d :: ds => c = d && charsStartWith rest ds

/-- Substring occurrence test over the character lists of two strings. -/
def strContainsSub (hay needle : String) : Bool :=
  go hay.toList needle.toList
where
  go : List Char → List Char → Bool
    | hs, ns =>
      match hs with
      | [] => charsStartWith [] ns
      | _ :: rest => charsStartWith hs ns || go rest ns

/-- PhaseConfig dataclass from configuration_loader.py. -/
structure PhaseConfig where
  phase_name : String
  role_name : String
  artifact_type : String
  next_phase : Option String
  is_active : Bool
deriving DecidableEq

/-- ConfigurationError from configuration_loader.py: message plus optional
phase_name and pipeline_id context fields. -/
structure ConfigurationError where
  message : String
  phase_name : Option String
  pipeline_id : Option String
deriving DecidableEq

/-- The string a ConfigurationError is initialised with (its rendering):
both context fields present gives "[pipeline_id:phase_name] message", only
the phase gives "[phase_name] message", otherwise the bare message. -/
def ConfigurationError.render (e : ConfigurationError) : String :=
  match e.phase_name, e.pipeline_id with
  | some ph, some pid => "[" ++ pid ++ ":" ++ ph ++ "] " ++ e.message
  | some ph, none => "[" ++ ph ++ "] " ++ e.message
  | none, _ => e.message

/-- ConfigurationLoader.load_config: look the phase up in the repository
(a lookup that returns an optional configuration row or raises, modelled by
Except), raise not-found or not-active ConfigurationErrors with the phase
as context, wrap any other repository fault, and otherwise copy the row
into a PhaseConfig.  The loader never receives a pipeline id, so every
error it raises has pipeline_id = none. -/
def ConfigurationLoader.load_config
    (repo : String → Except String (Option PhaseConfig)) (phase_name : String) :
    Except ConfigurationError PhaseConfig :=
  match repo phase_name with
  | .error e =>
      .error { message := "Failed to load configuration: " ++ e,
               phase_name := some phase_name, pipeline_id := none }
  | .ok none =>
      .error { message := "Phase configuration not found: " ++ phase_name,
               phase_name := some phase_name, pipeline_id := none }
  | .ok (some m) =>
      if m.is_active then
        .ok { phase_name := m.phase_name, role_name := m.role_name,
              artifact_type := m.artifact_type, next_phase := m.next_phase,
              is_active := m.is_active }
      else
        .error { message := "Phase configuration not active: " ++ phase_name,
                 phase_name := some phase_name, pipeline_id := none }

/-- UsageRecord dataclass from usage_recorder.py. -/
structure UsageRecord where
  pipeline_id : String
  prompt_id : String
  role_name : String
  phase_name : String
deriving DecidableEq

/-- UsageRecorder.record_usage: call the repository with pipeline_id and
prompt_id; return true on success and false when the repository raises
(the exception is only logged).  Totality of this Lean function is the
never-raises contract. -/
def UsageRecorder.record_usage (repo : String → String → Except String Nat)
    (usage : UsageRecord) : Bool :=
  match repo usage.pipeline_id usage.prompt_id with
  | .ok _ => true
  | .error _ => false

/-- LLMCallResult dataclass from llm_caller.py. -/
structure LLMCallResult where
  success : Bool
  response_text : Option String
  execution_time_ms : Nat
  token_usage : Option (Nat × Nat)
  error : Option String
deriving DecidableEq

/-- How a Python f-string renders an optional string (None prints as
"None"). -/
def pyFormatOpt : Option String → String
  | some s => s
  | none => "None"

/-- Outcome of a call to RolePromptService.build_prompt as seen by the
orchestrator: a (prompt_text, prompt_id) pair, a ValueError (wrapped as
PromptBuildError), or any other exception type and message (handled by the
catch-all). -/
inductive BuildOutcome where
  | ok (prompt_text prompt_id : String)
  | valueError (msg : String)
  | unexpected (exc_type exc_msg : String)

/-- The shared payload of the ExecutionError class hierarchy in
phase_execution_orchestrator.py: message, phase_name, pipeline_id. -/
structure ExecErrorCtx where
  message : String
  phase_name : String
  pipeline_id : String
deriving DecidableEq

/-- The string an ExecutionError is initialised with:
"[pipeline_id:phase_name] message". -/
def ExecErrorCtx.render (e : ExecErrorCtx) : String :=
  "[" ++ e.pipeline_id ++ ":" ++ e.phase_name ++ "] " ++ e.message

/-- The typed exceptions that can escape execute_phase: a propagated
ConfigurationError, or one of the ExecutionError subclasses
(PromptBuildError, LLMError, ParseError) or the catch-all base
ExecutionError. -/
inductive ExecuteError where
  | configErr (e : ConfigurationError)
  | promptBuildError (e : ExecErrorCtx)
  | llmError (e : ExecErrorCtx)
  | parseError (e : ExecErrorCtx)
  | executionError (e : ExecErrorCtx)
deriving DecidableEq

/-- PhaseExecutionResult dataclass from phase_execution_orchestrator.py. -/
structure PhaseExecutionResult (α : Type) where
  success : Bool
  artifact : Option α
  artifact_type : String
  next_phase : Option String
  prompt_id : String
  llm_response_raw : Option String
  execution_time_ms : Nat
  error : Option String
deriving DecidableEq

/-- The five collaborators of PhaseExecutionOrchestrator, as functions.
sigma and tau are the types of the pipeline_state and artifacts dicts,
which the orchestrator treats as opaque; build_prompt is a state
transformer on them because a Python callee could mutate the dicts it is
passed (the source forwards them to RolePromptService.build_prompt and
never touches them itself). -/
structure OrchestratorDeps (α σ τ : Type) where
  load_config : String → Except ConfigurationError PhaseConfig
  build_prompt : String → String → String → String → σ → τ → BuildOutcome × σ × τ
  llm_call : String → String → LLMCallResult
  strategies : List (Strategy α)
  record_usage : UsageRecord → Bool

/-- PhaseExecutionOrchestrator.execute_phase (source lines 89-213):
load config, build the prompt (ValueError becomes PromptBuildError, any
other exception is the catch-all ExecutionError case), call the LLM and
fail with LLMError when unsuccessful, parse the response text and fail
with ParseError joining the diagnostics with "; ", record usage
best-effort (the boolean is only logged), and assemble the result.  The
returned pair carries the final values of the pipeline_state and artifacts
dicts so that mutation can be reasoned about. -/
def PhaseExecutionOrchestrator.execute_phase {α σ τ : Type}
    (d : OrchestratorDeps α σ τ) (pipeline_id phase_name epic_context : String)
    (pipeline_state : σ) (artifacts : τ) :
    Except ExecuteError (PhaseExecutionResult α) × σ × τ :=
  match d.load_config phase_name with
  | .error e => (.error (.configErr e), pipeline_state, artifacts)
  | .ok config =>
    match d.build_prompt config.role_name pipeline_id phase_name epic_context
        pipeline_state artifacts with
    | (.valueError m, ps1, a1) =>
        (.error (.promptBuildError
          { message := m, phase_name := phase_name, pipeline_id := pipeline_id }),
         ps1, a1)
    | (.unexpected ty m, ps1, a1) =>
        (.error (.executionError
          { message := "Unexpected internal error: " ++ ty ++ ": " ++ m,
            phase_name := phase_name, pipeline_id := pipeline_id }),
         ps1, a1)
    | (.ok prompt_text prompt_id, ps1, a1) =>
        let llm_result := d.llm_call prompt_text "Please proceed with this phase."
        if llm_result.success then
          let parse_result := LLMResponseParser.parse d.strategies
            (match llm_result.response_text with
             | some t => PyText.ofString t
             | none => PyText.nonString)
          if parse_result.success then
            let usage : UsageRecord :=
              { pipeline_id := pipeline_id, prompt_id := prompt_id,
                role_name := config.role_name, phase_name := phase_name }
            let _recorded := d.record_usage usage
            (.ok { success := true, artifact := parse_result.data,
                   artifact_type := config.artifact_type,
                   next_phase := config.next_phase, prompt_id := prompt_id,
                   llm_response_raw := llm_result.response_text,
                   execution_time_ms := llm_result.execution_time_ms,
                   error := none },
             ps1, a1)
          else
            (.error (.parseError
              { message := "Parse failed: " ++
                  String.intercalate "; " parse_result.error_messages,
                phase_name := phase_name, pipeline_id := pipeline_id }),
             ps1, a1)
        else
          (.error (.llmError
            { message := "LLM call failed: " ++ pyFormatOpt llm_result.error,
              phase_name := phase_name, pipeline_id := pipeline_id }),
           ps1, a1)

/-- The runtime value held by the pipeline.state column as the service
uses it: either a JSON object whose only key the code ever touches is
"artifacts" (an optional artifact map, values Optional as in Python), or
the MVP string form that update_state writes ("state == current_phase").
An absent artifacts key models the empty dict. -/
inductive PipeStateVal (α : Type) where
  | dict (artifacts : Option (List (String × Option α)))
  | str (s : String)
deriving DecidableEq

/-- Python truthiness of a pipeline.state value: an empty dict and an
empty string are falsy. -/
def PipeStateVal.truthy {α : Type} : PipeStateVal α → Bool
  | .dict none => false
  | .dict (some _) => true
  | .str s => !(s == "")

/-- Modelled from the spec: one row of the external pipeline store
(PipelineRepository is not under src).  Spec section 6: read/update by
pipeline_id, exposing current_phase, state, timestamps; initial_context is
read by the service for the epic description. -/
structure PipelineRecord (α : Type) where
  pipeline_id : String
  epic_id : String
  current_phase : String
  state : Option (PipeStateVal α)
  initial_context : Option (List (String × String))
  updated_at : Nat
deriving DecidableEq

/-- Modelled from the spec: an appended PhaseTransition audit row
(PhaseTransitionRepository is not under src).  Spec section 3:
pipeline_id, from_state, to_state, timestamp, reason. -/
structure TransitionRecord where
  pipeline_id : String
  from_state : String
  to_state : String
  reason : String
  timestamp : Nat
deriving DecidableEq

/-- Modelled from the spec: the persistent stores the committer touches -
the pipeline store rows, the append-only transition audit rows, and a
logical clock standing for wall-clock timestamps. -/
structure Store (α : Type) where
  pipelines : List (PipelineRecord α)
  transitions : List TransitionRecord
  clock : Nat
deriving DecidableEq

/-- Modelled from the spec: PipelineRepository.get_by_id - keyed lookup
of a pipeline row. -/
def Store.getById {α : Type} (store : Store α) (pid : String) :
    Option (PipelineRecord α) :=
  store.pipelines.find? (fun p => p.pipeline_id == pid)

/-- Modelled from the spec: PipelineRepository.update_state - keyed
update of the stored pipeline, setting its state column to the given
new_state value and its current_phase to new_phase, stamping updated_at
(spec section 6: read/update by pipeline_id, exposing current_phase,
state, timestamps).  The service passes phase strings for both arguments
(src comment: for MVP, state == current_phase, both store the phase
value), so the written state is the string form.  Returns the updated row
alongside the new store. -/
def Store.update_state {α : Type} (store : Store α) (pid new_state new_phase : String) :
    Option (PipelineRecord α) × Store α :=
  match store.pipelines.find? (fun p => p.pipeline_id == pid) with
  | none => (none, store)
  | some p =>
      let p' : PipelineRecord α :=
        { p with state := some (.str new_state), current_phase := new_phase,
                 updated_at := store.clock }
      (some p',
       { store with
           pipelines := store.pipelines.map
             (fun q => if q.pipeline_id == pid then p' else q),
           clock := store.clock + 1 })

/-- Modelled from the spec: PhaseTransitionRepository.create - append one
audit row (spec section 3: written exactly once per committed transition,
never mutated). -/
def Store.createTransition {α : Type} (store : Store α)
    (pid from_state to_state reason : String) : Store α :=
  { store with
      transitions := store.transitions ++
        [{ pipeline_id := pid, from_state := from_state, to_state := to_state,
           reason := reason, timestamp := store.clock }],
      clock := store.clock + 1 }

/-- The exceptions that can escape _advance_phase_data_driven: the
pipeline-not-found ValueError, the missing-API-key RuntimeError, dynamic
type errors from treating a string-valued state as a dict, and the
typed orchestrator errors (which also cover the invalid-next-phase
ExecutionError the service itself raises). -/
inductive AdvanceError where
  | valueError (msg : String)
  | runtimeError (msg : String)
  | attributeError (msg : String)
  | typeError (msg : String)
  | execError (e : ExecuteError)
deriving DecidableEq

/-- PhaseAdvancedResponse as built by the data-driven path. -/
structure PhaseAdvancedResponse (α : Type) where
  pipeline_id : String
  previous_phase : String
  current_phase : String
  state : Option (PipeStateVal α)
  updated_at : Nat
deriving DecidableEq

/-- The dependencies _advance_phase_data_driven instantiates: the
environment API key, the phase-configuration repository behind
ConfigurationLoader, the prompt builder (Modelled from the spec:
RolePromptService is not under src; spec section 4.2 contracts it to not
mutate pipeline_state/artifacts, so it is a pure function of its inputs),
the LLM client call, the parser strategies, and the usage repository. -/
structure ServiceDeps (α : Type) where
  api_key : Option String
  cfg_repo : String → Except String (Option PhaseConfig)
  build_prompt : String → String → String → String → PipeStateVal α →
    List (String × Option α) → BuildOutcome
  llm_call : String → String → LLMCallResult
  strategies : List (Strategy α)
  usage_repo : String → String → Except String Nat

/-- The OrchestratorDeps the service wires together (source lines
181-203): the loader over the configuration repository, the non-mutating
prompt builder lifted to the state-transformer signature, the LLM caller,
the default-ordered parser strategies and the usage recorder over its
repository. -/
def ServiceDeps.orch {α : Type} (d : ServiceDeps α) :
    OrchestratorDeps α (PipeStateVal α) (List (String × Option α)) :=
  { load_config := ConfigurationLoader.load_config d.cfg_repo,
    build_prompt := fun r pid ph ec ps a => (d.build_prompt r pid ph ec ps a, ps, a),
    llm_call := d.llm_call,
    strategies := d.strategies,
    record_usage := UsageRecorder.record_usage d.usage_repo }

/-- The epic_context argument: initial_context.get("epic_description", "")
when initial_context is truthy, else "". -/
def epicContextOf {α : Type} (p : PipelineRecord α) : String :=
  match p.initial_context with
  | some ctx => ((ctx.find? (fun kv => kv.1 == "epic_description")).map Prod.snd).getD ""
  | none => ""

/-- The pipeline_state argument: pipeline.state or the empty dict when the
state is falsy or missing. -/
def pipelineStateArg {α : Type} (p : PipelineRecord α) : PipeStateVal α :=
  match p.state with
  | some v => if v.truthy then v else .dict none
  | none => .dict none

/-- The artifacts argument: pipeline.state.get("artifacts", empty dict)
when the state is truthy, else the empty dict; calling .get on the MVP
string form raises an AttributeError. -/
def artifactsArg {α : Type} (p : PipelineRecord α) :
    Except AdvanceError (List (String × Option α)) :=
  match p.state with
  | none => .ok []
  | some (.dict none) => .ok []
  | some (.dict (some m)) => .ok m
  | some (.str s) =>
      if s == "" then .ok []
      else .error (.attributeError "str object has no attribute get")

/-- Python dict item assignment on an association list: replace the value
in place when the key exists, otherwise append the new pair. -/
def dictSet {α : Type} : List (String × Option α) → String → Option α →
    List (String × Option α)
  | [], k, v => [(k, v)]
  | (k', v') :: rest, k, v =>
      if k' == k then (k, v) :: rest else (k', v') :: dictSet rest k v

/-- The in-memory merge of source lines 220-225: ensure state is a dict
with an artifacts key, then assign the new artifact under its type.  On
the MVP string form the key-insertion or item assignment raises a
TypeError (strings support neither). -/
def mergeArtifact {α : Type} : PipeStateVal α → String → Option α →
    Except AdvanceError (PipeStateVal α)
  | .dict none, ty, a => .ok (.dict (some (dictSet [] ty a)))
  | .dict (some m), ty, a => .ok (.dict (some (dictSet m ty a)))
  | .str _, _, _ => .error (.typeError "str object does not support item assignment")

/-- PipelineService._advance_phase_data_driven (source lines 168-269):
load the pipeline (ValueError when absent), require the API key
(RuntimeError when absent), run execute_phase over the current phase with
the state and artifacts views, merge the artifact into the in-memory state
copy, validate a non-null next_phase by resolving its configuration and
raise the invalid-next-phase ExecutionError naming the previous phase and
pipeline on failure, then persist via update_state (passing the next phase
or the "complete" sentinel as both new_state and new_phase), append the
audit transition, and build the response from the updated row.  Every
error path returns the store untouched: no repository write precedes the
raise. -/
def PipelineService.advancePhaseDataDriven {α : Type} (d : ServiceDeps α)
    (store : Store α) (pipeline_id : String) :
    Except AdvanceError (PhaseAdvancedResponse α) × Store α :=
  match store.getById pipeline_id with
  | none => (.error (.valueError ("Pipeline not found: " ++ pipeline_id)), store)
  | some pipeline =>
    match d.api_key with
    | none =>
        (.error (.runtimeError "ANTHROPIC_API_KEY environment variable not set"),
         store)
    | some _ =>
      match artifactsArg pipeline with
      | .error e => (.error e, store)
      | .ok artifacts =>
        match PhaseExecutionOrchestrator.execute_phase d.orch pipeline_id
            pipeline.current_phase (epicContextOf pipeline)
            (pipelineStateArg pipeline) artifacts with
        | (.error e, _, _) => (.error (.execError e), store)
        | (.ok result, _, _) =>
          match mergeArtifact (pipeline.state.getD (.dict none))
              result.artifact_type result.artifact with
          | .error e => (.error e, store)
          | .ok _merged =>
            let previous_phase := pipeline.current_phase
            let validation : Except AdvanceError Unit :=
              match result.next_phase with
              | some np =>
                  match ConfigurationLoader.load_config d.cfg_repo np with
                  | .error _ =>
                      .error (.execError (.executionError
                        { message := "Invalid next_phase configuration: " ++ np,
                          phase_name := previous_phase,
                          pipeline_id := pipeline_id }))
                  | .ok _ => .ok ()
              | none => .ok ()
            match validation with
            | .error e => (.error e, store)
            | .ok _ =>
              let new_phase := result.next_phase.getD "complete"
              match store.update_state pipeline_id new_phase new_phase with
              | (none, store1) =>
                  (.error (.attributeError "NoneType has no attribute pipeline_id"),
                   store1)
              | (some updated, store1) =>
                  let store2 := store1.createTransition pipeline_id previous_phase
                    new_phase "Data-driven phase execution"
                  (.ok { pipeline_id := updated.pipeline_id,
                         previous_phase := previous_phase,
                         current_phase := updated.current_phase,
                         state := updated.state,
                         updated_at := updated.updated_at },
                   store2)

/-- A concrete active pm-phase configuration row (the example
scenario of the spec). -/
def pmConfigActive : PhaseConfig :=
  { phase_name := "pm_phase", role_name := "pm", artifact_type := "epic",
    next_phase := some "arch_phase", is_active := true }

/-- The same configuration row marked inactive. -/
def pmConfigInactive : PhaseConfig :=
  { phase_name := "pm_phase", role_name := "pm", artifact_type := "epic",
    next_phase := some "arch_phase", is_active := false }

/-- A configuration repository holding only the inactive pm-phase row. -/
def repoInactive : String → Except String (Option PhaseConfig) :=
  fun ph => if ph == "pm_phase" then .ok (some pmConfigInactive) else .ok none

/-- A configuration repository holding only the active pm-phase row. -/
def repoActive : String → Except String (Option PhaseConfig) :=
  fun ph => if ph == "pm_phase" then .ok (some pmConfigActive) else .ok none

/-- A strategy over Nat payloads that always extracts the artifact 42. -/
def stratEpic : Strategy Nat :=
  { name := "DirectParseStrategy", run := fun _ => .ok (some 42) }

/-- Orchestrator dependencies whose configuration repository only has the
inactive pm-phase row; numbers stand for the opaque state and artifact
dicts. -/
def c4deps : OrchestratorDeps Nat Nat Nat :=
  { load_config := ConfigurationLoader.load_config repoInactive,
    build_prompt := fun _ _ _ _ ps a => (.ok "PROMPT" "rp_1", ps, a),
    llm_call := fun _ _ =>
      { success := true, response_text := some "RAW", execution_time_ms := 5,
        token_usage := some (100, 50), error := none },
    strategies := [stratEpic],
    record_usage := fun _ => true }

/-- Orchestrator dependencies with the active pm-phase row and a failing
LLM call. -/
def llmFailDeps : OrchestratorDeps Nat Nat Nat :=
  { load_config := ConfigurationLoader.load_config repoActive,
    build_prompt := fun _ _ _ _ ps a => (.ok "PROMPT" "rp_1", ps, a),
    llm_call := fun _ _ =>
      { success := false, response_text := none, execution_time_ms := 5,
        token_usage := none, error := some "API Error" },
    strategies := [stratEpic],
    record_usage := fun _ => true }

/-- Orchestrator dependencies with the active pm-phase row and a
successful LLM call whose response the single strategy parses. -/
def okDeps : OrchestratorDeps Nat Nat Nat :=
  { load_config := ConfigurationLoader.load_config repoActive,
    build_prompt := fun _ _ _ _ ps a => (.ok "PROMPT" "rp_1", ps, a),
    llm_call := fun _ _ =>
      { success := true, response_text := some "RAW", execution_time_ms := 5,
        token_usage := some (100, 50), error := none },
    strategies := [stratEpic],
    record_usage := fun _ => true }

/-- A concrete active arch-phase configuration row. -/
def archConfig : PhaseConfig :=
  { phase_name := "arch_phase", role_name := "architect",
    artifact_type := "design", next_phase := some "ba_phase", is_active := true }

/-- A concrete active terminal configuration row (next_phase null). -/
def commitConfig : PhaseConfig :=
  { phase_name := "commit_phase", role_name := "commit",
    artifact_type := "commit_message", next_phase := none, is_active := true }

/-- Service dependencies whose repository has pm_phase and arch_phase
rows, with working prompt builder, LLM and parser. -/
def svcOk : ServiceDeps Nat :=
  { api_key := some "k",
    cfg_repo := fun ph =>
      if ph == "pm_phase" then .ok (some pmConfigActive)
      else if ph == "arch_phase" then .ok (some archConfig)
      else .ok none,
    build_prompt := fun _ _ _ _ _ _ => .ok "PROMPT" "rp_1",
    llm_call := fun _ _ =>
      { success := true, response_text := some "RAW", execution_time_ms := 5,
        token_usage := some (100, 50), error := none },
    strategies := [stratEpic],
    usage_repo := fun _ _ => .ok 1 }

/-- Service dependencies whose repository has only the pm_phase row, so
the proposed next phase arch_phase has no configuration. -/
def svcBadNext : ServiceDeps Nat :=
  { svcOk with
    cfg_repo := fun ph =>
      if ph == "pm_phase" then .ok (some pmConfigActive) else .ok none }

/-- Service dependencies whose repository has only the terminal
commit_phase row. -/
def svcTerminal : ServiceDeps Nat :=
  { svcOk with
    cfg_repo := fun ph =>
      if ph == "commit_phase" then .ok (some commitConfig) else .ok none }

/-- A stored pipeline at pm_phase with an empty artifacts map. -/
def pipRec : PipelineRecord Nat :=
  { pipeline_id := "pip_1", epic_id := "epic_1", current_phase := "pm_phase",
    state := some (.dict (some [])),
    initial_context := some [("epic_description", "Build auth")],
    updated_at := 0 }

/-- A store holding only that pipeline. -/
def store0 : Store Nat :=
  { pipelines := [pipRec], transitions := [], clock := 0 }

/-- A stored pipeline at the terminal commit_phase. -/
def pipTerm : PipelineRecord Nat :=
  { pipeline_id := "pip_2", epic_id := "epic_1",
    current_phase := "commit_phase", state := some (.dict (some [])),
    initial_context := none, updated_at := 0 }

/-- A store holding only the terminal-phase pipeline. -/
def storeTerm : Store Nat :=
  { pipelines := [pipTerm], transitions := [], clock := 0 }

end Definitions

section ParserLemmas

/-- Unfolding lemma: the loop on a strategy whose run returns a non-null
value succeeds immediately. -/
theorem parseLoop_cons_some {α : Type} (st : Strategy α) (rest : List (Strategy α))
    (text : String) (errors : List String) (d : α) (h : st.run text = .ok (some d)) :
    parseLoop (st :: rest) text errors =
      { success := true, data := some d, strategy_used := some st.name,
        error_messages := [] } := by
  simp [parseLoop, h]

/-- Unfolding lemma: the loop skips a strategy whose run returns null. -/
theorem parseLoop_cons_none {α : Type} (st : Strategy α) (rest : List (Strategy α))
    (text : String) (errors : List String) (h : st.run text = .ok none) :
    parseLoop (st :: rest) text errors = parseLoop rest text errors := by
  simp [parseLoop, h]

/-- Unfolding lemma: the loop on a raising strategy records the message and
continues with the remaining strategies. -/
theorem parseLoop_cons_error {α : Type} (st : Strategy α) (rest : List (Strategy α))
    (text : String) (errors : List String) (e : String) (h : st.run text = .error e) :
    parseLoop (st :: rest) text errors =
      parseLoop rest text (errors ++ [st.name ++ ": " ++ e]) := by
  simp [parseLoop, h]

/-- If every strategy in a prefix returns no data (null or raise), the loop
on prefix plus suffix reduces to the loop on the suffix with the raised
messages appended to the accumulator, and the attempted names cover the
whole prefix. -/
theorem parseLoop_append_of_no_data {α : Type} (pre post : List (Strategy α))
    (text : String) (errors : List String)
    (hpre : ∀ st ∈ pre, ∀ d : α, st.run text ≠ .ok (some d)) :
    parseLoop (pre ++ post) text errors =
      parseLoop post text (errors ++ loopRaisedMsgs pre text) ∧
    loopAttempts (pre ++ post) text =
      pre.map Strategy.name ++ loopAttempts post text := by
  induction pre generalizing errors with
  | nil => simp [loopRaisedMsgs]
  | cons st rest ih =>
      have hst := hpre st (by simp)
      have hrest : ∀ s ∈ rest, ∀ d : α, s.run text ≠ .ok (some d) := by
        intro s hs d
        exact hpre s (by simp [hs]) d
      cases hrun : st.run text with
      | ok od =>
          cases od with
          | none =>
              have := ih errors hrest
              simp [parseLoop, loopAttempts, loopRaisedMsgs, hrun, this.1, this.2]
          | some d => exact absurd hrun (hst d)
      | error e =>
          have := ih (errors ++ [st.name ++ ": " ++ e]) hrest
          simp [parseLoop, loopAttempts, loopRaisedMsgs, hrun, this.1, this.2]

/-- A loop run in which no strategy returns data fails with the
accumulated messages (fallback when empty). -/
theorem parseLoop_all_no_data {α : Type} (strategies : List (Strategy α))
    (text : String) (errors : List String)
    (h : ∀ st ∈ strategies, ∀ d : α, st.run text ≠ .ok (some d)) :
    parseLoop strategies text errors =
      { success := false, data := none, strategy_used := none,
        error_messages :=
          if (errors ++ loopRaisedMsgs strategies text).isEmpty then
            ["All strategies failed"]
          else errors ++ loopRaisedMsgs strategies text } := by
  have := (parseLoop_append_of_no_data strategies [] text errors h).1
  simpa [parseLoop] using this

/-- A successful loop run always carries an empty error_messages list,
some data and a strategy name. -/
theorem parseLoop_success_shape {α : Type} (strategies : List (Strategy α))
    (text : String) (errors : List String)
    (h : (parseLoop strategies text errors).success = true) :
    (parseLoop strategies text errors).error_messages = [] ∧
    (parseLoop strategies text errors).data ≠ none ∧
    (parseLoop strategies text errors).strategy_used ≠ none := by
  induction strategies generalizing errors with
  | nil => simp [parseLoop] at h
  | cons st rest ih =>
      cases hrun : st.run text with
      | ok od =>
          cases od with
          | none =>
              rw [parseLoop_cons_none st rest text errors hrun] at h ⊢
              exact ih errors h
          | some d =>
              rw [parseLoop_cons_some st rest text errors d hrun] at h ⊢
              simp
      | error e =>
          rw [parseLoop_cons_error st rest text errors e hrun] at h ⊢
          exact ih _ h

end ParserLemmas

section ParserClaims

/-- C3: for every non-empty string input, the parser tries its configured
strategies in order and the first strategy returning a non-null result
wins: parse returns success with exactly the data of that strategy and
strategy_used equal to its name, and no strategy after the winner is
attempted. -/
theorem parse_first_nonnull_strategy_wins {α : Type}
    (pre post : List (Strategy α)) (w : Strategy α) (s : String) (d : α)
    (hs : pyBlank s = false)
    (hpre : ∀ st ∈ pre, ∀ d0 : α, st.run s ≠ .ok (some d0))
    (hw : w.run s = .ok (some d)) :
    LLMResponseParser.parse (pre ++ w :: post) (.ofString s) =
      { success := true, data := some d, strategy_used := some w.name,
        error_messages := [] } ∧
    parseAttempts (pre ++ w :: post) (.ofString s) =
      pre.map Strategy.name ++ [w.name] := by
  have h1 := parseLoop_append_of_no_data pre (w :: post) s [] hpre
  refine ⟨?_, ?_⟩
  · rw [LLMResponseParser.parse, if_neg (by simp [hs]), h1.1,
      parseLoop_cons_some w post s _ d hw]
  · rw [parseAttempts, if_neg (by simp [hs]), h1.2]
    simp [loopAttempts, hw]

/-- Witness for C3: with a raising strategy and a null strategy before the
winner and one strategy after it, parse succeeds with the data of the winner
and name and attempts exactly the first three strategies. -/
theorem parse_first_nonnull_strategy_wins_witness :
    LLMResponseParser.parse
        ([Strategy.mk "ThrowStrat" (fun _ => .error "boom"),
          Strategy.mk "NullStrat" (fun _ => .ok none)] ++
          Strategy.mk "WinStrat" (fun _ => .ok (some 7)) ::
          [Strategy.mk "LaterStrat" (fun _ => .ok (some 9))])
        (.ofString "payload") =
      { success := true, data := some 7, strategy_used := some "WinStrat",
        error_messages := [] } ∧
    parseAttempts
        ([Strategy.mk "ThrowStrat" (fun _ => .error "boom"),
          Strategy.mk "NullStrat" (fun _ => .ok none)] ++
          Strategy.mk "WinStrat" (fun _ => .ok (some 7)) ::
          [Strategy.mk "LaterStrat" (fun _ => .ok (some 9))])
        (.ofString "payload") =
      ["ThrowStrat", "NullStrat"].map id ++ ["WinStrat"] := by
  have := parse_first_nonnull_strategy_wins
    [Strategy.mk "ThrowStrat" (fun _ => .error "boom"),
     Strategy.mk "NullStrat" (fun _ => .ok none)]
    [Strategy.mk "LaterStrat" (fun _ => .ok (some 9))]
    (Strategy.mk "WinStrat" (fun _ => .ok (some 7))) "payload" 7
    (by decide)
    (by
      intro st hst d0
      simp [List.mem_cons] at hst
      rcases hst with h | h <;> subst h <;> simp)
    rfl
  simpa using this

/-- C5: non-string input fails immediately with the diagnostic
"Invalid input: expected string", empty or whitespace-only string input
fails immediately with "Empty response text", and in both cases no
strategy is attempted. -/
theorem parse_invalid_input_fast_fail {α : Type} (strategies : List (Strategy α)) :
    (LLMResponseParser.parse strategies .nonString =
        { success := false, data := none, strategy_used := none,
          error_messages := ["Invalid input: expected string"] } ∧
      parseAttempts strategies .nonString = []) ∧
    ∀ s : String, pyBlank s = true →
      LLMResponseParser.parse strategies (.ofString s) =
        { success := false, data := none, strategy_used := none,
          error_messages := ["Empty response text"] } ∧
      parseAttempts strategies (.ofString s) = [] := by
  refine ⟨⟨rfl, rfl⟩, ?_⟩
  intro s hs
  constructor
  · rw [LLMResponseParser.parse, if_pos hs]
  · rw [parseAttempts, if_pos hs]

/-- Witness for C5: a whitespace-only input on a one-strategy parser fails
with the empty-input diagnostic and attempts nothing. -/
theorem parse_invalid_input_fast_fail_witness :
    pyBlank "  " = true ∧
    (LLMResponseParser.parse [Strategy.mk "WinStrat" (fun _ => .ok (some 7))]
        (.ofString "  ") =
      { success := false, data := none, strategy_used := none,
        error_messages := ["Empty response text"] } ∧
      parseAttempts [Strategy.mk "WinStrat" (fun _ => .ok (some 7))]
        (.ofString "  ") = []) :=
  ⟨by decide,
   (parse_invalid_input_fast_fail
     [Strategy.mk "WinStrat" (fun _ => .ok (some 7))]).2 "  " (by decide)⟩

/-- C6: on a non-empty string a raising strategy never aborts the chain -
its "name: message" diagnostic is appended and the next strategy is still
attempted, a later strategy can still succeed after earlier throwers, and
when every strategy returns null or raises the parse fails carrying the
aggregated diagnostics, or the fallback "All strategies failed" when no
diagnostics were produced. -/
theorem parse_throwing_strategy_absorbed {α : Type} (s : String)
    (hs : pyBlank s = false) :
    (∀ (t : Strategy α) (rest : List (Strategy α)) (errors : List String)
        (e : String), t.run s = .error e →
        parseLoop (t :: rest) s errors =
          parseLoop rest s (errors ++ [t.name ++ ": " ++ e]) ∧
        loopAttempts (t :: rest) s = t.name :: loopAttempts rest s) ∧
    (∀ (pre post : List (Strategy α)) (w : Strategy α) (d : α),
        (∀ st ∈ pre, ∀ d0 : α, st.run s ≠ .ok (some d0)) →
        w.run s = .ok (some d) →
        (LLMResponseParser.parse (pre ++ w :: post) (.ofString s)).success = true) ∧
    (∀ strategies : List (Strategy α),
        (∀ st ∈ strategies, ∀ d0 : α, st.run s ≠ .ok (some d0)) →
        LLMResponseParser.parse strategies (.ofString s) =
          { success := false, data := none, strategy_used := none,
            error_messages :=
              if (loopRaisedMsgs strategies s).isEmpty then
                ["All strategies failed"]
              else loopRaisedMsgs strategies s }) := by
  refine ⟨?_, ?_, ?_⟩
  · intro t rest errors e he
    exact ⟨parseLoop_cons_error t rest s errors e he, by simp [loopAttempts, he]⟩
  · intro pre post w d hpre hw
    have h1 := (parseLoop_append_of_no_data pre (w :: post) s [] hpre).1
    rw [LLMResponseParser.parse, if_neg (by simp [hs]), h1,
      parseLoop_cons_some w post s _ d hw]
  · intro strategies hall
    rw [LLMResponseParser.parse, if_neg (by simp [hs]),
      parseLoop_all_no_data strategies s [] hall]
    simp

/-- Witness for C6: the continuation conjunct applied to a thrower before
a null strategy, the later-success conjunct applied to a thrower before a
winner, and the all-fail conjunct on a thrower plus a null strategy
aggregating the single diagnostic. -/
theorem parse_throwing_strategy_absorbed_witness :
    (parseLoop [stratThrow, stratNull] "x" [] =
        parseLoop [stratNull] "x" ([] ++ [stratThrow.name ++ ": " ++ "crash"]) ∧
      loopAttempts [stratThrow, stratNull] "x" =
        stratThrow.name :: loopAttempts [stratNull] "x") ∧
    (LLMResponseParser.parse [stratThrow, stratWin] (.ofString "x")).success
        = true ∧
    LLMResponseParser.parse [stratThrow, stratNull] (.ofString "x") =
      { success := false, data := none, strategy_used := none,
        error_messages :=
          if (loopRaisedMsgs [stratThrow, stratNull] "x").isEmpty then
            ["All strategies failed"]
          else loopRaisedMsgs [stratThrow, stratNull] "x" } := by
  have hmain := parse_throwing_strategy_absorbed (α := Nat) "x" (by decide)
  refine ⟨?_, ?_, ?_⟩
  · exact hmain.1 stratThrow [stratNull] [] "crash" rfl
  · exact hmain.2.1 [stratThrow] [] stratWin 3
      (by
        intro st hst d0
        simp [List.mem_cons] at hst
        subst hst
        simp [stratThrow])
      rfl
  · exact hmain.2.2 [stratThrow, stratNull]
      (by
        intro st hst d0
        simp [List.mem_cons] at hst
        rcases hst with h | h <;> subst h <;> simp [stratThrow, stratNull])

/-- C10: whenever parse succeeds on any input, the returned ParseResult
has an empty error_messages list - diagnostics accumulated from earlier
raising strategies are discarded on success. -/
theorem parse_success_has_empty_errors {α : Type}
    (strategies : List (Strategy α)) (input : PyText)
    (h : (LLMResponseParser.parse strategies input).success = true) :
    (LLMResponseParser.parse strategies input).error_messages = [] := by
  cases input with
  | nonString => simp [LLMResponseParser.parse] at h
  | ofString s =>
      by_cases hb : pyBlank s
      · rw [LLMResponseParser.parse, if_pos hb] at h
        simp at h
      · rw [LLMResponseParser.parse, if_neg hb] at h ⊢
        exact (parseLoop_success_shape strategies s [] h).1

/-- Witness for C10: a parser whose first strategy raises and whose second
succeeds returns success with an empty error_messages list. -/
theorem parse_success_has_empty_errors_witness :
    (LLMResponseParser.parse
        [Strategy.mk "A" (fun _ => .error "crash"),
         Strategy.mk "W" (fun _ => .ok (some 3))] (.ofString "x")).success = true ∧
    (LLMResponseParser.parse
        [Strategy.mk "A" (fun _ => .error "crash"),
         Strategy.mk "W" (fun _ => .ok (some 3))] (.ofString "x")).error_messages
      = [] := by
  refine ⟨by decide, parse_success_has_empty_errors _ _ (by decide)⟩

end ParserClaims

section OrchestratorLemmas

/-- Prefix preservation: a character-list prefix stays a prefix after
appending a tail to the larger list. -/
theorem charsStartWith_append (ns : List Char) :
    ∀ (hs tail : List Char), charsStartWith hs ns = true →
      charsStartWith (hs ++ tail) ns = true := by
  induction ns with
  | nil => intro hs tail _; cases hs <;> simp [charsStartWith]
  | cons d ds ih =>
      intro hs tail h
      cases hs with
      | nil => simp [charsStartWith] at h
      | cons c rest =>
          simp [charsStartWith] at h ⊢
          exact ⟨h.1, ih rest tail h.2⟩

/-- The substring scanner accepts the empty needle on any haystack. -/
theorem strContainsSub_go_nil (hs : List Char) :
    strContainsSub.go hs [] = true := by
  cases hs <;> simp [strContainsSub.go, charsStartWith]

/-- Scanner preservation: an occurrence survives appending a tail to the
haystack. -/
theorem strContainsSub_go_append (ns : List Char) :
    ∀ (hs tail : List Char), strContainsSub.go hs ns = true →
      strContainsSub.go (hs ++ tail) ns = true := by
  intro hs
  induction hs with
  | nil =>
      intro tail h
      rw [strContainsSub.go] at h
      cases ns with
      | nil => simpa using strContainsSub_go_nil tail
      | cons d ds => simp [charsStartWith] at h
  | cons c rest ih =>
      intro tail h
      rw [strContainsSub.go] at h
      rw [List.cons_append, strContainsSub.go]
      rcases Bool.or_eq_true_iff.mp h with h1 | h2
      · exact Bool.or_eq_true_iff.mpr (Or.inl (charsStartWith_append ns _ tail h1))
      · exact Bool.or_eq_true_iff.mpr (Or.inr (ih tail h2))

/-- A substring of a string is a substring of any right-extension of it. -/
theorem strContainsSub_append_left (a b needle : String)
    (h : strContainsSub a needle = true) :
    strContainsSub (a ++ b) needle = true := by
  rw [strContainsSub] at h ⊢
  have hab : (a ++ b).toList = a.toList ++ b.toList := rfl
  rw [hab]
  exact strContainsSub_go_append needle.toList a.toList b.toList h

/-- A successful execute_phase run returns a result whose next_phase,
artifact_type and success flag come from the loaded configuration. -/
theorem execute_phase_ok_fields {α σ τ : Type} (d : OrchestratorDeps α σ τ)
    (pipeline_id phase_name epic_context : String) (ps : σ) (a : τ)
    (config : PhaseConfig) (r : PhaseExecutionResult α) (ps2 : σ) (a2 : τ)
    (hc : d.load_config phase_name = .ok config)
    (h : PhaseExecutionOrchestrator.execute_phase d pipeline_id phase_name
        epic_context ps a = (.ok r, ps2, a2)) :
    r.next_phase = config.next_phase ∧ r.artifact_type = config.artifact_type ∧
    r.success = true ∧ r.error = none := by
  rw [PhaseExecutionOrchestrator.execute_phase] at h
  simp only [hc] at h
  split at h
  · simp at h
  · simp at h
  · split at h
    · split at h
      · simp at h
        obtain ⟨h1, -⟩ := h
        rw [← h1]
        simp
      · simp at h
    · simp at h

/-- Every ExecutionError-family failure escaping execute_phase carries the
pipeline_id and phase_name of the call as its context fields. -/
theorem execute_phase_error_ctx {α σ τ : Type} (d : OrchestratorDeps α σ τ)
    (pipeline_id phase_name epic_context : String) (ps : σ) (a : τ)
    (ctx : ExecErrorCtx)
    (h : (PhaseExecutionOrchestrator.execute_phase d pipeline_id phase_name
          epic_context ps a).1 = .error (.promptBuildError ctx) ∨
        (PhaseExecutionOrchestrator.execute_phase d pipeline_id phase_name
          epic_context ps a).1 = .error (.llmError ctx) ∨
        (PhaseExecutionOrchestrator.execute_phase d pipeline_id phase_name
          epic_context ps a).1 = .error (.parseError ctx) ∨
        (PhaseExecutionOrchestrator.execute_phase d pipeline_id phase_name
          epic_context ps a).1 = .error (.executionError ctx)) :
    ctx.pipeline_id = pipeline_id ∧ ctx.phase_name = phase_name := by
  rcases hE : PhaseExecutionOrchestrator.execute_phase d pipeline_id phase_name
      epic_context ps a with ⟨res, ps2, a2⟩
  have hfst : (PhaseExecutionOrchestrator.execute_phase d pipeline_id phase_name
      epic_context ps a).1 = res := by rw [hE]
  rw [hfst] at h
  cases hc : d.load_config phase_name with
  | error e =>
      rw [PhaseExecutionOrchestrator.execute_phase] at hE
      simp only [hc] at hE
      obtain ⟨h1, -⟩ := Prod.mk.injEq .. ▸ hE
      subst h1
      simp at h
  | ok config =>
      rw [PhaseExecutionOrchestrator.execute_phase] at hE
      simp only [hc] at hE
      split at hE
      · obtain ⟨h1, -⟩ := Prod.mk.injEq .. ▸ hE
        subst h1
        simp at h
        rw [← h]
        exact ⟨rfl, rfl⟩
      · obtain ⟨h1, -⟩ := Prod.mk.injEq .. ▸ hE
        subst h1
        simp at h
        rw [← h]
        exact ⟨rfl, rfl⟩
      · split at hE
        · split at hE
          · obtain ⟨h1, -⟩ := Prod.mk.injEq .. ▸ hE
            subst h1
            simp at h
          · obtain ⟨h1, -⟩ := Prod.mk.injEq .. ▸ hE
            subst h1
            simp at h
            rw [← h]
            exact ⟨rfl, rfl⟩
        · obtain ⟨h1, -⟩ := Prod.mk.injEq .. ▸ hE
          subst h1
          simp at h
          rw [← h]
          exact ⟨rfl, rfl⟩

end OrchestratorLemmas

section OrchestratorClaims

/-- C7: record_usage absorbs any repository failure (it is total and
returns false whenever the repository raises), and the outcome of
execute_phase, including every field of a successful PhaseExecutionResult,
is entirely independent of what the usage recorder returns. -/
theorem record_usage_failure_absorbed {α σ τ : Type} :
    (∀ (repo : String → String → Except String Nat) (usage : UsageRecord)
        (msg : String), repo usage.pipeline_id usage.prompt_id = .error msg →
        UsageRecorder.record_usage repo usage = false) ∧
    (∀ (d : OrchestratorDeps α σ τ) (r1 r2 : UsageRecord → Bool)
        (pipeline_id phase_name epic_context : String) (ps : σ) (a : τ),
        PhaseExecutionOrchestrator.execute_phase { d with record_usage := r1 }
          pipeline_id phase_name epic_context ps a =
        PhaseExecutionOrchestrator.execute_phase { d with record_usage := r2 }
          pipeline_id phase_name epic_context ps a) := by
  constructor
  · intro repo usage msg h
    simp [UsageRecorder.record_usage, h]
  · intro d r1 r2 pipeline_id phase_name epic_context ps a
    simp only [PhaseExecutionOrchestrator.execute_phase]

/-- Witness for C7: a repository that raises makes record_usage return
false, and swapping an always-true recorder for an always-false one leaves
the execute_phase outcome of a concrete successful run unchanged. -/
theorem record_usage_failure_absorbed_witness :
    UsageRecorder.record_usage (fun _ _ => .error "db down")
      { pipeline_id := "pip_1", prompt_id := "rp_1", role_name := "pm",
        phase_name := "pm_phase" } = false ∧
    PhaseExecutionOrchestrator.execute_phase
        { okDeps with record_usage := fun _ => true } "pip_1" "pm_phase" "" 0 0 =
      PhaseExecutionOrchestrator.execute_phase
        { okDeps with record_usage := fun _ => false } "pip_1" "pm_phase" "" 0 0 :=
  ⟨(record_usage_failure_absorbed (α := Nat) (σ := Nat) (τ := Nat)).1
      (fun _ _ => .error "db down")
      { pipeline_id := "pip_1", prompt_id := "rp_1", role_name := "pm",
        phase_name := "pm_phase" } "db down" rfl,
   (record_usage_failure_absorbed (α := Nat) (σ := Nat) (τ := Nat)).2
      okDeps (fun _ => true) (fun _ => false) "pip_1" "pm_phase" "" 0 0⟩

/-- C8: execute_phase never mutates its pipeline_state or artifacts
arguments: provided the prompt builder honours its read-only contract (it
is the only collaborator the dicts are passed to), the dict state returned
alongside any outcome equals the input state. -/
theorem execute_phase_never_mutates_inputs {α σ τ : Type}
    (d : OrchestratorDeps α σ τ)
    (hb : ∀ (r pid ph ec : String) (ps : σ) (a : τ),
        (d.build_prompt r pid ph ec ps a).2 = (ps, a))
    (pipeline_id phase_name epic_context : String) (ps : σ) (a : τ) :
    (PhaseExecutionOrchestrator.execute_phase d pipeline_id phase_name
        epic_context ps a).2 = (ps, a) := by
  rw [PhaseExecutionOrchestrator.execute_phase]
  cases hc : d.load_config phase_name with
  | error e => rfl
  | ok config =>
      have hbp := hb config.role_name pipeline_id phase_name epic_context ps a
      rcases hb2 : d.build_prompt config.role_name pipeline_id phase_name
          epic_context ps a with ⟨outcome, ps1, a1⟩
      rw [hb2] at hbp
      cases outcome with
      | valueError m => simp only [hb2]; exact hbp
      | unexpected ty m => simp only [hb2]; exact hbp
      | ok prompt_text prompt_id =>
          simp only [hb2]
          split
          · split
            · exact hbp
            · exact hbp
          · exact hbp

/-- Witness for C8: a concrete successful run and a concrete failing run
both return the input state pair (5, 7) untouched. -/
theorem execute_phase_never_mutates_inputs_witness :
    (PhaseExecutionOrchestrator.execute_phase okDeps "pip_1" "pm_phase" "" 5 7).2
      = (5, 7) ∧
    (PhaseExecutionOrchestrator.execute_phase llmFailDeps "pip_1" "pm_phase" ""
        5 7).2 = (5, 7) :=
  ⟨execute_phase_never_mutates_inputs okDeps (fun _ _ _ _ _ _ => rfl)
      "pip_1" "pm_phase" "" 5 7,
   execute_phase_never_mutates_inputs llmFailDeps (fun _ _ _ _ _ _ => rfl)
      "pip_1" "pm_phase" "" 5 7⟩

/-- C4 counterexample: with an inactive pm_phase configuration, the error
propagated out of execute_phase is the ConfigurationError of the loader with no
pipeline_id; it renders as "[pm_phase] ..." which contains "not active"
but does not contain the claimed "[pip_1:pm_phase]" context. -/
theorem config_error_lacks_pipeline_context :
    (PhaseExecutionOrchestrator.execute_phase c4deps "pip_1" "pm_phase" "" 0 0).1
      = .error (.configErr
        { message := "Phase configuration not active: pm_phase",
          phase_name := some "pm_phase", pipeline_id := none }) ∧
    ConfigurationError.render
        { message := "Phase configuration not active: pm_phase",
          phase_name := some "pm_phase", pipeline_id := none } =
      "[pm_phase] Phase configuration not active: pm_phase" ∧
    strContainsSub "[pm_phase] Phase configuration not active: pm_phase"
      "not active" = true ∧
    strContainsSub "[pm_phase] Phase configuration not active: pm_phase"
      "[pip_1:pm_phase]" = false := by
  refine ⟨?_, rfl, by decide, by decide⟩
  rfl

/-- C4 (amended): errors raised by the orchestrator itself
(PromptBuildError, LLMError, ParseError and the catch-all ExecutionError)
carry the pipeline_id and phase_name of the call and render as
"[pipeline:phase] message"; a configuration failure instead propagates the
error of the loader unchanged, carrying only the phase: an inactive
configuration yields a message containing "not active" rendered with the
phase-only context "[phase_name] message" and no pipeline id. -/
theorem execute_phase_error_context_amended {α σ τ : Type}
    (d : OrchestratorDeps α σ τ) (pipeline_id phase_name epic_context : String)
    (ps : σ) (a : τ) :
    (∀ ctx : ExecErrorCtx,
        ((PhaseExecutionOrchestrator.execute_phase d pipeline_id phase_name
            epic_context ps a).1 = .error (.promptBuildError ctx) ∨
         (PhaseExecutionOrchestrator.execute_phase d pipeline_id phase_name
            epic_context ps a).1 = .error (.llmError ctx) ∨
         (PhaseExecutionOrchestrator.execute_phase d pipeline_id phase_name
            epic_context ps a).1 = .error (.parseError ctx) ∨
         (PhaseExecutionOrchestrator.execute_phase d pipeline_id phase_name
            epic_context ps a).1 = .error (.executionError ctx)) →
        ctx.pipeline_id = pipeline_id ∧ ctx.phase_name = phase_name ∧
        ctx.render = "[" ++ pipeline_id ++ ":" ++ phase_name ++ "] " ++
          ctx.message) ∧
    (∀ (repo : String → Except String (Option PhaseConfig)) (m : PhaseConfig),
        d.load_config = ConfigurationLoader.load_config repo →
        repo phase_name = .ok (some m) → m.is_active = false →
        (PhaseExecutionOrchestrator.execute_phase d pipeline_id phase_name
            epic_context ps a).1 = .error (.configErr
          { message := "Phase configuration not active: " ++ phase_name,
            phase_name := some phase_name, pipeline_id := none }) ∧
        strContainsSub ("Phase configuration not active: " ++ phase_name)
          "not active" = true ∧
        ConfigurationError.render
            { message := "Phase configuration not active: " ++ phase_name,
              phase_name := some phase_name, pipeline_id := none } =
          "[" ++ phase_name ++ "] " ++
            ("Phase configuration not active: " ++ phase_name)) := by
  constructor
  · intro ctx h
    obtain ⟨h1, h2⟩ := execute_phase_error_ctx d pipeline_id phase_name
      epic_context ps a ctx h
    refine ⟨h1, h2, ?_⟩
    rw [ExecErrorCtx.render, h1, h2]
  · intro repo m hd hrepo hina
    have hload : d.load_config phase_name = .error
        { message := "Phase configuration not active: " ++ phase_name,
          phase_name := some phase_name, pipeline_id := none } := by
      rw [hd, ConfigurationLoader.load_config, hrepo]
      simp [hina]
    refine ⟨?_, ?_, rfl⟩
    · rw [PhaseExecutionOrchestrator.execute_phase]
      simp only [hload]
    · exact strContainsSub_append_left "Phase configuration not active: "
        phase_name "not active" (by decide)

/-- Witness for C4 (amended): the LLMError of a concrete failing run
carries pipeline "pip_1" and phase "pm_phase" and renders with the
"[pip_1:pm_phase]" context, and the concrete inactive-configuration run
produces the phase-only "not active" ConfigurationError. -/
theorem execute_phase_error_context_amended_witness :
    ((ExecErrorCtx.mk "LLM call failed: API Error" "pm_phase" "pip_1").pipeline_id
        = "pip_1" ∧
      (ExecErrorCtx.mk "LLM call failed: API Error" "pm_phase" "pip_1").phase_name
        = "pm_phase" ∧
      (ExecErrorCtx.mk "LLM call failed: API Error" "pm_phase" "pip_1").render =
        "[" ++ "pip_1" ++ ":" ++ "pm_phase" ++ "] " ++
          (ExecErrorCtx.mk "LLM call failed: API Error" "pm_phase" "pip_1").message) ∧
    ((PhaseExecutionOrchestrator.execute_phase c4deps "pip_1" "pm_phase" "" 0 0).1
        = .error (.configErr
          { message := "Phase configuration not active: " ++ "pm_phase",
            phase_name := some "pm_phase", pipeline_id := none }) ∧
      strContainsSub ("Phase configuration not active: " ++ "pm_phase")
        "not active" = true ∧
      ConfigurationError.render
          { message := "Phase configuration not active: " ++ "pm_phase",
            phase_name := some "pm_phase", pipeline_id := none } =
        "[" ++ "pm_phase" ++ "] " ++
          ("Phase configuration not active: " ++ "pm_phase")) :=
  ⟨(execute_phase_error_context_amended llmFailDeps "pip_1" "pm_phase" "" 0 0).1
      (ExecErrorCtx.mk "LLM call failed: API Error" "pm_phase" "pip_1")
      (Or.inr (Or.inl rfl)),
   (execute_phase_error_context_amended c4deps "pip_1" "pm_phase" "" 0 0).2
      repoInactive pmConfigInactive rfl rfl rfl⟩

end OrchestratorClaims

section ServiceClaims

/-- C2: when the executed result proposes a next phase whose configuration
cannot be resolved, the data-driven advance raises the ExecutionError
naming the invalid next phase in its message and carrying the previous
phase and pipeline id as context, and returns the store exactly as it was:
no pipeline update and no transition row is persisted. -/
theorem advance_invalid_next_phase_aborts {α : Type} (d : ServiceDeps α)
    (store : Store α) (pid : String) (p : PipelineRecord α) (key : String)
    (arts : List (String × Option α)) (result : PhaseExecutionResult α)
    (ps2 : PipeStateVal α) (as2 : List (String × Option α))
    (merged : PipeStateVal α) (np : String) (ce : ConfigurationError)
    (hp : store.getById pid = some p)
    (hk : d.api_key = some key)
    (ha : artifactsArg p = .ok arts)
    (hexec : PhaseExecutionOrchestrator.execute_phase d.orch pid p.current_phase
        (epicContextOf p) (pipelineStateArg p) arts = (.ok result, ps2, as2))
    (hm : mergeArtifact (p.state.getD (.dict none)) result.artifact_type
        result.artifact = .ok merged)
    (hnp : result.next_phase = some np)
    (hcfg : ConfigurationLoader.load_config d.cfg_repo np = .error ce) :
    PipelineService.advancePhaseDataDriven d store pid =
      (.error (.execError (.executionError
        { message := "Invalid next_phase configuration: " ++ np,
          phase_name := p.current_phase, pipeline_id := pid })), store) := by
  rw [PipelineService.advancePhaseDataDriven]
  simp only [hp, hk, ha, hexec, hm, hnp, hcfg]

/-- Witness for C2: a concrete run whose pm_phase execution proposes
arch_phase, which has no configuration row; the advance returns the
invalid-next-phase error and the untouched store. -/
theorem advance_invalid_next_phase_aborts_witness :
    PipelineService.advancePhaseDataDriven svcBadNext store0 "pip_1" =
      (.error (.execError (.executionError
        { message := "Invalid next_phase configuration: " ++ "arch_phase",
          phase_name := pipRec.current_phase, pipeline_id := "pip_1" })),
       store0) :=
  advance_invalid_next_phase_aborts svcBadNext store0 "pip_1" pipRec "k" []
    { success := true, artifact := some 42, artifact_type := "epic",
      next_phase := some "arch_phase", prompt_id := "rp_1",
      llm_response_raw := some "RAW", execution_time_ms := 5, error := none }
    (pipelineStateArg pipRec) []
    (.dict (some [("epic", some 42)])) "arch_phase"
    { message := "Phase configuration not found: arch_phase",
      phase_name := some "arch_phase", pipeline_id := none }
    rfl rfl rfl rfl rfl rfl rfl

/-- C9: a successfully executed terminal phase (configuration next_phase
null) yields a result with next_phase null, and the data-driven advance
persists the sentinel "complete" as the stored current_phase
and state, uses it as the to_state of the appended transition row, and
reports it in the response. -/
theorem advance_terminal_phase_completes {α : Type} (d : ServiceDeps α)
    (store : Store α) (pid : String) (p : PipelineRecord α) (key : String)
    (arts : List (String × Option α)) (config : PhaseConfig)
    (result : PhaseExecutionResult α) (ps2 : PipeStateVal α)
    (as2 : List (String × Option α)) (merged : PipeStateVal α)
    (hp : store.getById pid = some p)
    (hk : d.api_key = some key)
    (ha : artifactsArg p = .ok arts)
    (hcfg : ConfigurationLoader.load_config d.cfg_repo p.current_phase =
      .ok config)
    (hterm : config.next_phase = none)
    (hexec : PhaseExecutionOrchestrator.execute_phase d.orch pid p.current_phase
        (epicContextOf p) (pipelineStateArg p) arts = (.ok result, ps2, as2))
    (hm : mergeArtifact (p.state.getD (.dict none)) result.artifact_type
        result.artifact = .ok merged) :
    result.next_phase = none ∧
    PipelineService.advancePhaseDataDriven d store pid =
      (.ok { pipeline_id := p.pipeline_id, previous_phase := p.current_phase,
             current_phase := "complete", state := some (.str "complete"),
             updated_at := store.clock },
       { pipelines := store.pipelines.map (fun q =>
           if q.pipeline_id == pid then
             { p with state := some (.str "complete"),
                      current_phase := "complete", updated_at := store.clock }
           else q),
         transitions := store.transitions ++
           [{ pipeline_id := pid, from_state := p.current_phase,
              to_state := "complete", reason := "Data-driven phase execution",
              timestamp := store.clock + 1 }],
         clock := store.clock + 2 }) := by
  have horch : d.orch.load_config p.current_phase = .ok config := hcfg
  have hnone : result.next_phase = none := by
    have := execute_phase_ok_fields d.orch pid p.current_phase
      (epicContextOf p) (pipelineStateArg p) arts config result ps2 as2
      horch hexec
    rw [this.1, hterm]
  refine ⟨hnone, ?_⟩
  have hpfind : store.pipelines.find? (fun q => q.pipeline_id == pid) = some p := hp
  rw [PipelineService.advancePhaseDataDriven]
  simp only [hp, hk, ha, hexec, hm, hnone, Store.update_state, hpfind,
    Store.createTransition]
  simp

/-- Witness for C9: a concrete run at the terminal commit_phase persists
"complete" as stored phase/state and as the to_state of the transition. -/
theorem advance_terminal_phase_completes_witness :
    ({ success := true, artifact := some 42, artifact_type := "commit_message",
       next_phase := none, prompt_id := "rp_1", llm_response_raw := some "RAW",
       execution_time_ms := 5,
       error := none } : PhaseExecutionResult Nat).next_phase = none ∧
    PipelineService.advancePhaseDataDriven svcTerminal storeTerm "pip_2" =
      (.ok { pipeline_id := pipTerm.pipeline_id,
             previous_phase := pipTerm.current_phase,
             current_phase := "complete", state := some (.str "complete"),
             updated_at := storeTerm.clock },
       { pipelines := storeTerm.pipelines.map (fun q =>
           if q.pipeline_id == "pip_2" then
             { pipTerm with state := some (.str "complete"),
                            current_phase := "complete",
                            updated_at := storeTerm.clock }
           else q),
         transitions := storeTerm.transitions ++
           [{ pipeline_id := "pip_2", from_state := pipTerm.current_phase,
              to_state := "complete", reason := "Data-driven phase execution",
              timestamp := storeTerm.clock + 1 }],
         clock := storeTerm.clock + 2 }) :=
  advance_terminal_phase_completes svcTerminal storeTerm "pip_2" pipTerm "k" []
    commitConfig
    { success := true, artifact := some 42, artifact_type := "commit_message",
      next_phase := none, prompt_id := "rp_1", llm_response_raw := some "RAW",
      execution_time_ms := 5, error := none }
    (pipelineStateArg pipTerm) [] (.dict (some [("commit_message", some 42)]))
    rfl rfl rfl rfl rfl rfl rfl

/-- C1: evaluating the committer at a concrete successful pm_phase
execution shows that the in-memory merge extends the artifacts map with
the new artifact, the advance succeeds and appends the audit row and the
new phase, but the stored state column of the pipeline afterwards holds the
phase string "arch_phase" rather than the merged artifacts map: the merged
state is never handed to the persistence call, so the three parts of the
claimed all-or-nothing unit are not all persisted even on full success. -/
theorem merged_state_not_persisted :
    mergeArtifact (PipeStateVal.dict (some ([] : List (String × Option Nat))))
        "epic" (some 42) = .ok (.dict (some [("epic", some 42)])) ∧
    (PipelineService.advancePhaseDataDriven svcOk store0 "pip_1").1 =
      .ok { pipeline_id := "pip_1", previous_phase := "pm_phase",
            current_phase := "arch_phase", state := some (.str "arch_phase"),
            updated_at := 0 } ∧
    ((PipelineService.advancePhaseDataDriven svcOk store0 "pip_1").2.getById
        "pip_1").map PipelineRecord.state = some (some (.str "arch_phase")) ∧
    (some (some (PipeStateVal.str "arch_phase")) ≠
      some (some (PipeStateVal.dict (some [("epic", some (42 : Nat))])))) ∧
    (PipelineService.advancePhaseDataDriven svcOk store0 "pip_1").2.transitions =
      [{ pipeline_id := "pip_1", from_state := "pm_phase",
         to_state := "arch_phase", reason := "Data-driven phase execution",
         timestamp := 1 }] := by
  refine ⟨rfl, rfl, rfl, by decide, rfl⟩

end ServiceClaims
